import Mathlib

/-!
Verification of the EV charging central coordination service
(`electric_vehicle1/central/ev_central.py`) and the charging-point peer
engine (`charging_point/ev_cp_engine.py`).

The embedding models the handlers of `EVCentral` as pure functions over an
explicit state record.  Protocol message fields are modelled by `Val`: a
field carrying a numeric literal is embedded as `Val.num q` (so Python's
`float(field)` becomes `Val.toNum`, which fails on non-numeric fields), and
every other field as `Val.str s`.  Sockets are modelled by stable connection
identifiers (`Nat`).  Side effects other than mutation of the `Central`
state (socket sends, UI broadcasts, storage and audit calls) are collected
in an output list `Out`.  The wall clock (`time.time()`) is passed in as an
explicit rational `now`.  Human-readable log text built with f-strings is
replaced by fixed tags (observability only); encryption of messages sent to
a charging point is not modelled (outputs carry the plaintext message).
A handler that raises an exception before mutating any state (a failed
`float(...)` conversion or an out-of-range field index) is modelled by the
handler returning `none`; the dispatch loop's per-message `try/except` is
modelled by `step`, which maps `none` to "state unchanged, no output".
-/

/-- One protocol message field.  `num q` stands for the decimal string
representation of `q`; `str s` for any other string. -/
inductive Val where
  | str : String → Val
  | num : ℚ → Val
deriving DecidableEq

/-- Python `float(field)`: succeeds exactly on numeric fields. -/
def Val.toNum : Val → Option ℚ
  | Val.num q => some q
  | Val.str _ => none

/-- Modelled from the spec: `config.CP_STATES` (the `config` module is not
part of the sources).  The spec fixes the lifecycle states as DISCONNECTED,
ACTIVATED, SUPPLYING, OUT_OF_ORDER; the dict maps each state name to its
wire string. -/
def ST_DISCONNECTED : Val := Val.str "DISCONNECTED"

/-- Lifecycle state ACTIVATED (see `ST_DISCONNECTED`). -/
def ST_ACTIVATED : Val := Val.str "ACTIVATED"

/-- Lifecycle state SUPPLYING (see `ST_DISCONNECTED`). -/
def ST_SUPPLYING : Val := Val.str "SUPPLYING"

/-- Lifecycle state OUT_OF_ORDER (see `ST_DISCONNECTED`). -/
def ST_OUT_OF_ORDER : Val := Val.str "OUT_OF_ORDER"

/-- Association-list lookup, modelling Python `dict.get`. -/
def alookup {α β : Type} [DecidableEq α] : List (α × β) → α → Option β
  | [], _ => none
  | (k, v) :: rest, key => if k = key then some v else alookup rest key

/-- Association-list update, modelling Python `d[k] = v` (update in place
if present, else append; Python dicts preserve insertion order). -/
def aset {α β : Type} [DecidableEq α] : List (α × β) → α → β → List (α × β)
  | [], key, v => [(key, v)]
  | (k, w) :: rest, key, v =>
      if k = key then (key, v) :: rest else (k, w) :: aset rest key v

/-- Association-list removal, modelling Python `d.pop(k, None)` /
`del d[k]`. -/
def adel {α β : Type} [DecidableEq α] : List (α × β) → α → List (α × β)
  | [], _ => []
  | (k, w) :: rest, key =>
      if k = key then rest else (k, w) :: adel rest key

/-- Python `int(q)`: truncation toward zero. -/
def qtrunc (q : ℚ) : ℤ := if 0 ≤ q then ⌊q⌋ else ⌈q⌉

/-- Round to the nearest integer, ties to even (Python `round` at value
level). -/
def roundHalfEven (q : ℚ) : ℤ :=
  let n := ⌊q⌋
  let f := q - n
  if f < 1/2 then n
  else if 1/2 < f then n + 1
  else if n % 2 = 0 then n else n + 1

/-- Python `round(q, d)` at value level. -/
def roundTo (d : ℕ) (q : ℚ) : ℚ :=
  (roundHalfEven (q * (10 : ℚ) ^ d) : ℚ) / (10 : ℚ) ^ d

/-- `round(q, 2)` — amounts in euro. -/
def round2 (q : ℚ) : ℚ := roundTo 2 q

/-- `round(q, 6)` — energy totals. -/
def round6 (q : ℚ) : ℚ := roundTo 6 q

/-- One charging-point record of `EVCentral.charging_points`
(`ev_central.py`, `_load_stored_cps` / `_handle_register`). -/
structure CPRec where
  state : Val
  location : ℚ × ℚ
  price_per_kwh : ℚ
  current_driver : Option Val
  kwh_delivered : ℚ
  amount_euro : ℚ
  session_start : Option ℚ
  charging_complete : Bool
  kwh_needed : ℚ
deriving DecidableEq

/-- One driver record of `EVCentral.drivers`. -/
structure DriverRec where
  status : String
  current_cp : Option Val
deriving DecidableEq

/-- The mutable state of `EVCentral` relevant to message handling. -/
structure Central where
  charging_points : List (Val × CPRec)
  drivers : List (Val × DriverRec)
  logs : List (Val × Val)
  entity_to_socket : List (Val × Nat)
  socket_to_entity : List (Nat × Val)
  socket_to_type : List (Nat × String)
  monitors : List (Val × Nat)
  active_connections : List (String × Nat)
  cp_encryption_keys : List (Val × String)
  cp_credentials : List (Val × (Option Val × Option Val))
deriving DecidableEq

/-- Observable effects of a handler other than mutation of `Central`:
socket sends, (encrypted) sends to a charging point, storage and audit
calls.  `fullState s` stands for `_send_full_state_to_ui` (the serialized
dump itself is observability only and not modelled field by field). -/
inductive Out where
  | send : Nat → List Val → Out
  | sendCP : Val → List Val → Out
  | fullState : Nat → Out
  | saveDriver : Val → String → Out
  | saveCp : Val → ℚ → ℚ → ℚ → Val → Out
  | saveSession : Val → Val → ℚ → ℚ → ℤ → Out
  | updateDriverStats : Val → ℚ → Out
  | audit : String → String → List Val → Out
deriving DecidableEq

/-- `_broadcast_to_ui_protocol` / `_broadcast_to_ui`: send to the WEB_UI
monitor socket when one is connected, otherwise do nothing. -/
def ui_broadcast (c : Central) (msg : List Val) : List Out :=
  match alookup c.monitors (Val.str "WEB_UI") with
  | some s => [Out.send s msg]
  | none => []

/-- `add_log`: append the entry (keeping the last 200) and forward a LOG
message to the UI.  The f-string log text is replaced by a fixed tag and
the timestamp is dropped (observability only). -/
def add_log (src txt : Val) (c : Central) : Central × List Out :=
  let l := c.logs ++ [(src, txt)]
  let l := if l.length > 200 then l.drop (l.length - 200) else l
  let c' := { c with logs := l }
  (c', ui_broadcast c' [Val.str "LOG", src, txt])

/-- `_send_to_cp`: look up the charging point's socket; emit the (to be
encrypted) message when it is bound, nothing otherwise. -/
def send_to_cp (c : Central) (cp_id : Val) (msg : List Val) : List Out :=
  match alookup c.entity_to_socket cp_id with
  | some _ => [Out.sendCP cp_id msg]
  | none => []

/-- JSON payload `json.dumps(\x7b"state": s\x7d)` used by the UI
broadcasts. -/
def state_json (s : String) : Val :=
  Val.str ("\x7b\"state\": \"" ++ s ++ "\"\x7d")

/-- `_handle_heartbeat`: write the reported state into the record unless
the stored state is SUPPLYING. -/
def handle_heartbeat (fields : List Val) (c : Central) : Central :=
  if fields.length < 3 then c else
  let cp_id := fields.getD 1 (Val.str "")
  let state := fields.getD 2 (Val.str "")
  match alookup c.charging_points cp_id with
  | none => c
  | some cp =>
      if cp.state ≠ ST_SUPPLYING then
        let cps := aset c.charging_points cp_id { cp with state := state }
        { c with charging_points := cps }
      else c

/-- `_handle_weather_alert` (socket path WEATHER_ALERT). -/
def handle_weather_alert (fields : List Val) (c : Central) : Central × List Out :=
  if fields.length < 3 then (c, []) else
  let cp_id := fields.getD 1 (Val.str "")
  let alert := fields.getD 2 (Val.str "")
  match alookup c.charging_points cp_id with
  | none => (c, [])
  | some cp =>
      if alert = Val.str "ALERT_COLD" then
        let cp1 := { cp with state := ST_OUT_OF_ORDER }
        let cps := aset c.charging_points cp_id cp1
        let c1 := { c with charging_points := cps }
        let r := add_log (Val.str "EV_Weather") (Val.str "OUT_OF_ORDER (cold)") c1
        (r.1, r.2 ++ ui_broadcast r.1 [Val.str "CP_STATE", cp_id, cp1.state])
      else if alert = Val.str "WEATHER_OK" then
        if cp.state ≠ ST_SUPPLYING then
          let cp1 := { cp with state := ST_ACTIVATED }
          let cps := aset c.charging_points cp_id cp1
          let c1 := { c with charging_points := cps }
          let r := add_log (Val.str "EV_Weather") (Val.str "ACTIVATED (weather ok)") c1
          (r.1, r.2 ++ ui_broadcast r.1 [Val.str "CP_STATE", cp_id, cp1.state])
        else (c, ui_broadcast c [Val.str "CP_STATE", cp_id, cp.state])
      else (c, ui_broadcast c [Val.str "CP_STATE", cp_id, cp.state])

/-- `api_weather_alert` (REST path `/api/weather_alert`).  The returned
string stands for the HTTP response label. -/
def api_weather_alert (cp_id alert : Val) (c : Central) :
    Central × List Out × String :=
  if cp_id = Val.str "" ∨ alert = Val.str "" then (c, [], "400")
  else
    let r0 := add_log (Val.str "EV_Weather") (Val.str "alert received") c
    match alookup r0.1.charging_points cp_id with
    | none => (r0.1, r0.2, "received (cp unknown)")
    | some cp =>
        if alert = Val.str "ALERT_COLD" then
          let cp1 := { cp with state := ST_OUT_OF_ORDER }
          let cps := aset r0.1.charging_points cp_id cp1
          let c1 := { r0.1 with charging_points := cps }
          let b := ui_broadcast c1 [Val.str "CP_STATE", cp_id, state_json "OUT_OF_ORDER"]
          let r := add_log (Val.str "EV_Central") (Val.str "taken out of service (cold weather)") c1
          (r.1, r0.2 ++ b ++ r.2, "received")
        else if alert = Val.str "WEATHER_OK" then
          if cp.state ≠ ST_SUPPLYING then
            let cp1 := { cp with state := ST_ACTIVATED }
            let cps := aset r0.1.charging_points cp_id cp1
            let c1 := { r0.1 with charging_points := cps }
            let b := ui_broadcast c1 [Val.str "CP_STATE", cp_id, state_json "ACTIVATED"]
            let r := add_log (Val.str "EV_Central") (Val.str "restored to service (weather ok)") c1
            (r.1, r0.2 ++ b ++ r.2, "received")
          else (r0.1, r0.2, "received")
        else (r0.1, r0.2, "received")

/-- `_handle_fault`: mark the charging point OUT_OF_ORDER (if known),
audit, log, broadcast. -/
def handle_fault (fields : List Val) (cid : String) (c : Central) :
    Central × List Out :=
  if fields.length < 2 then (c, []) else
  let cp_id := fields.getD 1 (Val.str "")
  let c1 :=
    match alookup c.charging_points cp_id with
    | some cp =>
        let cps := aset c.charging_points cp_id { cp with state := ST_OUT_OF_ORDER }
        { c with charging_points := cps }
    | none => c
  let a := Out.audit "log_fault" cid [cp_id, Val.str "CP_FAULT"]
  let r := add_log (Val.str "EV_Central") (Val.str "FAULT") c1
  (r.1, a :: r.2 ++ ui_broadcast r.1 [Val.str "FAULT", cp_id, state_json "OUT_OF_ORDER"])

/-- `_handle_recovery`: back to ACTIVATED unless SUPPLYING; log,
broadcast. -/
def handle_recovery (fields : List Val) (c : Central) : Central × List Out :=
  if fields.length < 2 then (c, []) else
  let cp_id := fields.getD 1 (Val.str "")
  let c1 :=
    match alookup c.charging_points cp_id with
    | some cp =>
        if cp.state ≠ ST_SUPPLYING then
          let cps := aset c.charging_points cp_id { cp with state := ST_ACTIVATED }
          { c with charging_points := cps }
        else c
    | none => c
  let r := add_log (Val.str "EV_Central") (Val.str "RECOVERY") c1
  (r.1, r.2 ++ ui_broadcast r.1 [Val.str "RECOVERY", cp_id, state_json "ACTIVATED"])

/-- `_handle_charge_request`.  `none` models the uncaught
`float(fields[3])` failure (raised before any state is read or written).
On a DENY the deny message is sent on the requesting socket and nothing is
mutated; on acceptance the charging point moves to SUPPLYING with a fresh
session, the driver record (if registered) to CHARGING, and AUTHORIZE goes
to the driver socket, to the charging point, and DRIVER_START to the UI. -/
def handle_charge_request (now : ℚ) (fields : List Val) (sock : Nat)
    (c : Central) : Option (Central × List Out) :=
  if fields.length < 4 then
    some (add_log (Val.str "EV_Central") (Val.str "Invalid REQUEST_CHARGE") c)
  else
    let driver_id := fields.getD 1 (Val.str "")
    let cp_id := fields.getD 2 (Val.str "")
    match (fields.getD 3 (Val.str "")).toNum with
    | none => none
    | some kwh_needed =>
      match alookup c.charging_points cp_id with
      | none =>
          some (c, [Out.send sock
            [Val.str "DENY", driver_id, cp_id, Val.str "CP_NOT_FOUND"]])
      | some cp =>
          if cp.state ≠ ST_ACTIVATED ∨ cp.current_driver ≠ none then
            let reason :=
              if cp.state ≠ ST_ACTIVATED then
                match cp.state with
                | Val.str s => Val.str ("CP_STATE_" ++ s)
                | Val.num _ => Val.str "CP_STATE_"
              else Val.str "CP_ALREADY_IN_USE"
            some (c, [Out.send sock [Val.str "DENY", driver_id, cp_id, reason]])
          else
            let cp1 : CPRec :=
              { cp with
                  state := ST_SUPPLYING
                  current_driver := some driver_id
                  session_start := some now
                  kwh_delivered := 0
                  amount_euro := 0
                  kwh_needed := kwh_needed
                  charging_complete := false }
            let cps := aset c.charging_points cp_id cp1
            let drvs :=
              match alookup c.drivers driver_id with
              | some d =>
                  aset c.drivers driver_id
                    { d with status := "CHARGING", current_cp := some cp_id }
              | none => c.drivers
            let price := cp.price_per_kwh
            let c1 := { c with charging_points := cps, drivers := drvs }
            let r := add_log (Val.str "EV_Central") (Val.str "Charge authorized") c1
            let outs :=
              [Out.audit "log_charge" "" [cp_id, driver_id, Val.str "CHARGE_START"],
               Out.send sock
                 [Val.str "AUTHORIZE", driver_id, cp_id, Val.num kwh_needed,
                  Val.num price]]
              ++ send_to_cp r.1 cp_id
                   [Val.str "AUTHORIZE", driver_id, cp_id, Val.num kwh_needed]
              ++ ui_broadcast r.1 [Val.str "DRIVER_START", cp_id, driver_id]
            some (r.1, r.2 ++ outs)

/-- `_handle_supply_update`: always accumulate the energy increment; store
the reported amount as the new total when it is ≥ the previous amount and
≥ 70% of accumulated-energy × price, otherwise add increment × price;
round the result to 2 decimals; fire the completion broadcast at most
once.  `none` models an uncaught `float(...)` failure. -/
def handle_supply_update (fields : List Val) (c : Central) :
    Option (Central × List Out) :=
  if fields.length < 4 then
    some (add_log (Val.str "EV_Central") (Val.str "Invalid SUPPLY_UPDATE") c)
  else
    match (fields.getD 2 (Val.str "")).toNum,
          (fields.getD 3 (Val.str "")).toNum with
    | some kwh_inc, some amount_field =>
      let cp_id := fields.getD 1 (Val.str "")
      match alookup c.charging_points cp_id with
      | none => some (c, [])
      | some cp =>
          let kwh1 := cp.kwh_delivered + kwh_inc
          let computed_total := kwh1 * cp.price_per_kwh
          let prev_amt := cp.amount_euro
          let amt1 :=
            if amount_field ≥ prev_amt ∧ amount_field ≥ computed_total * (7/10)
            then amount_field
            else prev_amt + kwh_inc * cp.price_per_kwh
          let amt2 := round2 amt1
          let complete1 :=
            cp.charging_complete ∨ (cp.kwh_needed > 0 ∧ kwh1 ≥ cp.kwh_needed)
          let completionOut :=
            if cp.kwh_needed > 0 ∧ kwh1 ≥ cp.kwh_needed ∧ ¬cp.charging_complete
            then ui_broadcast c
              [Val.str "CHARGING_COMPLETE", cp_id,
               (cp.current_driver).getD (Val.str "")]
            else []
          let cp1 :=
            { cp with kwh_delivered := kwh1, amount_euro := amt2,
                      charging_complete := complete1 }
          let cps := aset c.charging_points cp_id cp1
          let c1 := { c with charging_points := cps }
          let kwh_total := round6 kwh1
          let fwd :=
            match cp.current_driver with
            | some d =>
                (match alookup c1.entity_to_socket d with
                 | some ds =>
                     [Out.send ds
                       [Val.str "SUPPLY_UPDATE", cp_id, Val.num kwh_total,
                        Val.num amt2]]
                 | none => [])
            | none => []
          some (c1, completionOut ++ fwd
            ++ ui_broadcast c1
                 [Val.str "SUPPLY_UPDATE", cp_id, Val.num kwh_total,
                  Val.num amt2])
    | _, _ => none

/-- `_finalize_charge`: reset the charging-point record to ACTIVATED with
cleared session fields and zeroed live counters, reset the driver (if
registered) to IDLE, persist the session with the totals the caller
passed, emit the ticket and UI notifications. -/
def finalize_charge (now : ℚ) (cp_id driver_id : Val)
    (total_kwh total_amount : ℚ) (cid : String) (c : Central) :
    Central × List Out :=
  let duration : ℤ :=
    match alookup c.charging_points cp_id with
    | some cp =>
        match cp.session_start with
        | some s => qtrunc (now - s)
        | none => 0
    | none => 0
  let cps :=
    match alookup c.charging_points cp_id with
    | some cp =>
        aset c.charging_points cp_id
          { cp with
              state := ST_ACTIVATED
              current_driver := none
              session_start := none
              charging_complete := true
              kwh_needed := 0
              kwh_delivered := 0
              amount_euro := 0 }
    | none => c.charging_points
  let drvs :=
    match alookup c.drivers driver_id with
    | some _ =>
        aset c.drivers driver_id { status := "IDLE", current_cp := none }
    | none => c.drivers
  let c1 := { c with charging_points := cps, drivers := drvs }
  let ticket :=
    match alookup c1.entity_to_socket driver_id with
    | some ds =>
        [Out.send ds
          [Val.str "TICKET", cp_id, Val.num total_kwh, Val.num total_amount]]
    | none => []
  (c1,
    [Out.audit "log_charge" cid [cp_id, driver_id, Val.str "CHARGE_END"],
     Out.saveSession cp_id driver_id total_kwh total_amount duration,
     Out.updateDriverStats driver_id total_amount]
    ++ ticket
    ++ ui_broadcast c1 [Val.str "DRIVER_STOP", cp_id, driver_id]
    ++ ui_broadcast c1
         [Val.str "SUPPLY_END", cp_id, driver_id, Val.num total_kwh,
          Val.num total_amount])

/-- `_handle_supply_end` (from the charging point): parse totals and
finalize.  `none` models an uncaught `float(...)` failure. -/
def handle_supply_end (now : ℚ) (fields : List Val) (cid : String)
    (c : Central) : Option (Central × List Out) :=
  if fields.length < 5 then some (c, [])
  else
    match (fields.getD 3 (Val.str "")).toNum,
          (fields.getD 4 (Val.str "")).toNum with
    | some total_kwh, some total_amount =>
        some (finalize_charge now (fields.getD 1 (Val.str ""))
          (fields.getD 2 (Val.str "")) total_kwh total_amount cid c)
    | _, _ => none

/-- `_handle_end_charge` (manual stop from driver/UI): only acts when the
charging point's current driver matches; finalizes with the currently
accumulated totals after asking the charging point to stop. -/
def handle_end_charge (now : ℚ) (fields : List Val) (cid : String)
    (c : Central) : Central × List Out :=
  if fields.length < 3 then (c, [])
  else
    let driver_id := fields.getD 1 (Val.str "")
    let cp_id := fields.getD 2 (Val.str "")
    match alookup c.charging_points cp_id with
    | none => (c, [])
    | some cp =>
        if cp.current_driver ≠ some driver_id then (c, [])
        else
          let total_kwh := cp.kwh_delivered
          let total_amount := cp.amount_euro
          let stop := send_to_cp c cp_id [Val.str "END_SUPPLY", cp_id]
          let r := finalize_charge now cp_id driver_id total_kwh total_amount cid c
          (r.1, stop ++ r.2)

/-- `_handle_query_available_cps`: reply with every ACTIVATED charging
point that has no driver (no state mutation). -/
def handle_query_available_cps (fields : List Val) (sock : Nat)
    (c : Central) : List Out :=
  if fields.length < 2 then []
  else
    let avail := c.charging_points.filter fun p =>
      p.2.state = ST_ACTIVATED ∧ p.2.current_driver = none
    let items := avail.foldl
      (fun acc p =>
        acc ++ [p.1, Val.num p.2.location.1, Val.num p.2.location.2,
                Val.num p.2.price_per_kwh])
      ([] : List Val)
    [Out.send sock (Val.str "AVAILABLE_CPS" :: items)]

/-- External collaborators consumed by `_handle_register`: the registry
credential check (`/verify`), stored charging-point data
(`storage.get_cp`: latitude, longitude, price) and the key derivation
(`encryption.generate_key`). -/
structure Env where
  verify : Val → Option Val → Option Val → Bool
  getCp : Val → Option (ℚ × ℚ × ℚ)
  genKey : Option Val → String

/-- Default value of the Python `\x7b\x7d` placeholder used when a CP
registers that has no record yet: every field is about to be overwritten
by `cp.update`, with `dict.get` supplying `None` / `0.0` / `False` for the
carried-over fields. -/
def emptyCPRec : CPRec :=
  { state := ST_DISCONNECTED, location := (0, 0), price_per_kwh := 0,
    current_driver := none, kwh_delivered := 0, amount_euro := 0,
    session_start := none, charging_complete := false, kwh_needed := 0 }

/-- `_handle_register`: MONITOR/DRIVER/CP registration. -/
def handle_register (env : Env) (fields : List Val) (sock : Nat)
    (cid : String) (c : Central) : Central × List Out :=
  if fields.length < 3 then (c, [])
  else
    let t1 := fields.getD 1 (Val.str "")
    let ent := fields.getD 2 (Val.str "")
    if t1 = Val.str "MONITOR" then
      if ent = Val.str "WEB_UI" then
        let mons := aset c.monitors (Val.str "WEB_UI") sock
        let s2e := aset c.socket_to_entity sock (Val.str "WEB_UI")
        let s2t := aset c.socket_to_type sock "MONITOR"
        let c1 := { c with monitors := mons, socket_to_entity := s2e,
                           socket_to_type := s2t }
        (c1, [Out.send sock
                [Val.str "ACKNOWLEDGE", Val.str "WEB_UI", Val.str "OK"],
              Out.fullState sock])
      else (c, [])
    else if t1 = Val.str "DRIVER" then
      let drvs := aset c.drivers ent { status := "IDLE", current_cp := none }
      let e2s := aset c.entity_to_socket ent sock
      let s2e := aset c.socket_to_entity sock ent
      let s2t := aset c.socket_to_type sock "DRIVER"
      let c1 := { c with drivers := drvs, entity_to_socket := e2s,
                         socket_to_entity := s2e, socket_to_type := s2t }
      let r := add_log (Val.str "EV_Central") (Val.str "Driver registered") c1
      (r.1, Out.saveDriver ent "IDLE" :: r.2
        ++ [Out.send sock [Val.str "ACKNOWLEDGE", ent, Val.str "OK"]])
    else if t1 = Val.str "CP" then
      let username := if fields.length > 6 then some (fields.getD 6 (Val.str "")) else none
      let password := if fields.length > 7 then some (fields.getD 7 (Val.str "")) else none
      if ¬ env.verify ent username password then
        (c, [Out.send sock [Val.str "DENY", ent, Val.str "AUTH_FAILED"]])
      else
        let creds := aset c.cp_credentials ent (username, password)
        let key := env.genKey password
        let keys := aset c.cp_encryption_keys ent key
        let e2s := aset c.entity_to_socket ent sock
        let s2e := aset c.socket_to_entity sock ent
        let s2t := aset c.socket_to_type sock "CP"
        let c1 := { c with cp_credentials := creds, cp_encryption_keys := keys,
                           entity_to_socket := e2s, socket_to_entity := s2e,
                           socket_to_type := s2t }
        let llp : ℚ × ℚ × ℚ :=
          match env.getCp ent with
          | some stored => stored
          | none =>
              let lat? := if fields.length > 3
                          then (fields.getD 3 (Val.str "")).toNum
                          else some (40.5 : ℚ)
              let lon? := if fields.length > 4
                          then (fields.getD 4 (Val.str "")).toNum
                          else some (-3.1 : ℚ)
              let ll : ℚ × ℚ :=
                match lat?, lon? with
                | some la, some lo => (la, lo)
                | _, _ => (40.5, -3.1)
              let pr : ℚ :=
                match (if fields.length > 5
                       then (fields.getD 5 (Val.str "")).toNum
                       else some (0.3 : ℚ)) with
                | some p => p
                | none => 0.3
              (ll.1, ll.2, pr)
        let lat := llp.1
        let lon := llp.2.1
        let price := llp.2.2
        let base := (alookup c1.charging_points ent).getD emptyCPRec
        let rec1 := { base with state := ST_ACTIVATED, location := (lat, lon),
                                price_per_kwh := price }
        let rec2 := if rec1.current_driver ≠ none
                    then { rec1 with state := ST_SUPPLYING } else rec1
        let cps := aset c1.charging_points ent rec2
        let c2 := { c1 with charging_points := cps }
        let r := add_log (Val.str "EV_Central") (Val.str "CP connected") c2
        let fs :=
          match alookup r.1.monitors (Val.str "WEB_UI") with
          | some us => [Out.fullState us]
          | none => []
        (r.1,
          [Out.audit "log_auth" cid [ent, Val.str "success"],
           Out.saveCp ent lat lon price rec2.state,
           Out.send sock
             [Val.str "ACKNOWLEDGE", ent, Val.str "OK", Val.str key,
              Val.num lat, Val.num lon]]
          ++ r.2 ++ fs)
    else (c, [])

/-- `_cleanup_socket`: drop the socket's bindings; a charging point whose
record is SUPPLYING keeps its whole record (the early `return` also skips
the `active_connections` removal); otherwise the record is marked
DISCONNECTED with the driver and completion flag cleared. -/
def cleanup_socket (sock : Nat) (cid : String) (c : Central) :
    Central × List Out :=
  let entOpt := alookup c.socket_to_entity sock
  let typOpt := alookup c.socket_to_type sock
  let s2e := adel c.socket_to_entity sock
  let s2t := adel c.socket_to_type sock
  let c1 := { c with socket_to_entity := s2e, socket_to_type := s2t }
  let c2 :=
    match entOpt with
    | some ent =>
        if alookup c1.entity_to_socket ent = some sock then
          { c1 with entity_to_socket := adel c1.entity_to_socket ent }
        else c1
    | none => c1
  let c3 :=
    if typOpt = some "MONITOR" then
      match entOpt with
      | some ent =>
          if alookup c2.monitors ent = some sock then
            { c2 with monitors := adel c2.monitors ent }
          else c2
      | none => c2
    else c2
  if typOpt = some "CP" then
    match entOpt with
    | some ent =>
        (match alookup c3.charging_points ent with
         | some cp =>
             if cp.state = ST_SUPPLYING then (c3, [])
             else
               let cps := aset c3.charging_points ent
                 { cp with state := ST_DISCONNECTED, current_driver := none,
                           charging_complete := false }
               let c4 := { c3 with charging_points := cps }
               let b := ui_broadcast c4
                 [Val.str "CP_STATE", ent, state_json "DISCONNECTED"]
               ({ c4 with active_connections := adel c4.active_connections cid }, b)
         | none =>
             ({ c3 with active_connections := adel c3.active_connections cid }, []))
    | none => ({ c3 with active_connections := adel c3.active_connections cid }, [])
  else ({ c3 with active_connections := adel c3.active_connections cid }, [])

/-- `_process_fields`: the type-keyed dispatch of `EVCentral`.  `none`
models an exception raised inside the selected handler (caught by the
caller in `_handle_client`); unrecognized types are ignored. -/
def process_fields (env : Env) (now : ℚ) (sock : Nat) (cid : String)
    (fields : List Val) (c : Central) : Option (Central × List Out) :=
  match fields with
  | [] => none
  | t :: _ =>
    if t = Val.str "REGISTER" then some (handle_register env fields sock cid c)
    else if t = Val.str "HEARTBEAT" then some (handle_heartbeat fields c, [])
    else if t = Val.str "REQUEST_CHARGE" then
      handle_charge_request now fields sock c
    else if t = Val.str "QUERY_AVAILABLE_CPS" then
      some (c, handle_query_available_cps fields sock c)
    else if t = Val.str "SUPPLY_UPDATE" then handle_supply_update fields c
    else if t = Val.str "SUPPLY_END" then handle_supply_end now fields cid c
    else if t = Val.str "END_CHARGE" then
      some (handle_end_charge now fields cid c)
    else if t = Val.str "FINISH_CHARGE" then
      match fields with
      | _ :: f1 :: f2 :: _ =>
          some (handle_end_charge now [Val.str "END_CHARGE", f1, f2] cid c)
      | _ => none
    else if t = Val.str "FAULT" then some (handle_fault fields cid c)
    else if t = Val.str "RECOVERY" then some (handle_recovery fields c)
    else if t = Val.str "LOG" then
      some (add_log (fields.getD 1 (Val.str "UNKNOWN"))
        (fields.getD 2 (Val.str "")) c)
    else if t = Val.str "WEATHER_ALERT" then some (handle_weather_alert fields c)
    else some (c, [])

/-- One message-processing step of the dispatch loop `_handle_client`:
a handler exception is caught and logged, the connection and loop survive
with the state unchanged. -/
def step (env : Env) (now : ℚ) (sock : Nat) (cid : String)
    (fields : List Val) (c : Central) : Central × List Out :=
  (process_fields env now sock cid fields c).getD (c, [])

/-- The smallest number of fields each dispatched handler requires before
it reaches any unguarded field access (read off the `len(fields) < k`
guards, and `fields[1]`/`fields[2]` for FINISH_CHARGE). -/
def requiredLen (t : Val) : ℕ :=
  if t = Val.str "REGISTER" then 3
  else if t = Val.str "HEARTBEAT" then 3
  else if t = Val.str "REQUEST_CHARGE" then 4
  else if t = Val.str "QUERY_AVAILABLE_CPS" then 2
  else if t = Val.str "SUPPLY_UPDATE" then 4
  else if t = Val.str "SUPPLY_END" then 5
  else if t = Val.str "END_CHARGE" then 3
  else if t = Val.str "FINISH_CHARGE" then 3
  else if t = Val.str "FAULT" then 2
  else if t = Val.str "RECOVERY" then 2
  else if t = Val.str "WEATHER_ALERT" then 3
  else 1

/-- The active session of the charging-point peer engine
(`ev_cp_engine.py`). -/
structure CPSession where
  start : ℚ
  kwh_needed : ℚ
  kwh_delivered : ℚ
deriving DecidableEq

/-- The mutable state of the charging-point peer engine relevant to
AUTHORIZE handling. -/
structure CPEngine where
  state : Val
  current_driver : Option Val
  current_session : Option CPSession
  charging_complete : Bool
deriving DecidableEq

/-- `EVChargingPointEngine._handle_authorize`: on AUTHORIZE move from
ACTIVATED to SUPPLYING with a fresh session; in any other state leave the
engine unchanged (no reply is sent in either case).  `none` models the
uncaught IndexError / `float` failure on a malformed message. -/
def handle_authorize (now : ℚ) (fields : List Val) (e : CPEngine) :
    Option CPEngine :=
  match fields with
  | _ :: d :: _ :: k :: _ =>
      match k.toNum with
      | none => none
      | some kwh =>
          let started : CPEngine :=
            { e with
                state := ST_SUPPLYING
                current_driver := some d
                current_session := some ⟨now, kwh, 0⟩
                charging_complete := false }
          some (if e.state ≠ ST_ACTIVATED then e else started)
  | _ => none

/-! Concrete fixtures used by witnesses and counterexamples. -/

/-- Fixture charging-point id. -/
def cpx : Val := Val.str "CP-1"

/-- Fixture driver id. -/
def drx : Val := Val.str "D-1"

/-- Fixture second driver id. -/
def drx2 : Val := Val.str "D-2"

/-- Fixture: an ACTIVATED charging point with no driver. -/
def cpActive : CPRec :=
  { state := ST_ACTIVATED
    location := (1, 2)
    price_per_kwh := 3/10
    current_driver := none
    kwh_delivered := 0
    amount_euro := 0
    session_start := none
    charging_complete := false
    kwh_needed := 0 }

/-- Fixture: a SUPPLYING charging point mid-session. -/
def cpSupplying : CPRec :=
  { state := ST_SUPPLYING
    location := (1, 2)
    price_per_kwh := 3/10
    current_driver := some drx
    kwh_delivered := 5
    amount_euro := 2
    session_start := some 100
    charging_complete := false
    kwh_needed := 10 }

/-- Fixture central state holding `cpActive` and an idle driver. -/
def centralActive : Central :=
  { charging_points := [(cpx, cpActive)]
    drivers := [(drx, { status := "IDLE", current_cp := none })]
    logs := []
    entity_to_socket := [(cpx, 7), (drx, 8)]
    socket_to_entity := [(7, cpx), (8, drx)]
    socket_to_type := [(7, "CP"), (8, "DRIVER")]
    monitors := []
    active_connections := [("a", 7), ("b", 8)]
    cp_encryption_keys := []
    cp_credentials := [] }

/-- Fixture central state holding `cpSupplying` and its charging driver. -/
def centralSupplying : Central :=
  { charging_points := [(cpx, cpSupplying)]
    drivers := [(drx, { status := "CHARGING", current_cp := some cpx })]
    logs := []
    entity_to_socket := [(cpx, 7), (drx, 8)]
    socket_to_entity := [(7, cpx), (8, drx)]
    socket_to_type := [(7, "CP"), (8, "DRIVER")]
    monitors := []
    active_connections := [("a", 7), ("b", 8)]
    cp_encryption_keys := []
    cp_credentials := [] }

/-! Helper lemmas about the association-list operations. -/

theorem alookup_aset_self {α β : Type} [DecidableEq α]
    (l : List (α × β)) (k : α) (v : β) : alookup (aset l k v) k = some v := by
  induction l with
  | nil => simp [aset, alookup]
  | cons p rest ih =>
      by_cases hk : p.1 = k
      · simp [aset, hk, alookup]
      · simp [aset, hk, alookup, ih]

theorem alookup_aset_ne {α β : Type} [DecidableEq α]
    (l : List (α × β)) (k k' : α) (v : β) (h : k ≠ k') :
    alookup (aset l k v) k' = alookup l k' := by
  induction l with
  | nil => simp [aset, alookup, h]
  | cons p rest ih =>
      by_cases hk : p.1 = k
      · simp [aset, hk, alookup, h]
      · simp [aset, hk, alookup, ih]

/-- C10: for every HEARTBEAT for a known charging point, the reported
state is written into the record only when the stored state is not
SUPPLYING; a heartbeat never overrides SUPPLYING, and in all cases every
field of the record other than the lifecycle state (and every other part
of the central state) is unchanged. -/
theorem heartbeat_never_overrides_supplying
    (cpv stv : Val) (c : Central) (cp : CPRec)
    (h : alookup c.charging_points cpv = some cp) :
    (cp.state ≠ ST_SUPPLYING →
      handle_heartbeat [Val.str "HEARTBEAT", cpv, stv] c
        = { c with charging_points := aset c.charging_points cpv { cp with state := stv } })
    ∧ (cp.state = ST_SUPPLYING →
      handle_heartbeat [Val.str "HEARTBEAT", cpv, stv] c = c) := by
  constructor
  · intro hs
    unfold handle_heartbeat
    simp [h, hs]
  · intro hs
    unfold handle_heartbeat
    simp [h, hs]

/-- Witness for `heartbeat_never_overrides_supplying` at a concrete
state. -/
theorem heartbeat_never_overrides_supplying_witness :
    (cpSupplying.state ≠ ST_SUPPLYING →
      handle_heartbeat [Val.str "HEARTBEAT", cpx, ST_DISCONNECTED] centralSupplying
        = { centralSupplying with charging_points := aset centralSupplying.charging_points cpx { cpSupplying with state := ST_DISCONNECTED } })
    ∧ (cpSupplying.state = ST_SUPPLYING →
      handle_heartbeat [Val.str "HEARTBEAT", cpx, ST_DISCONNECTED] centralSupplying = centralSupplying) :=
  heartbeat_never_overrides_supplying cpx ST_DISCONNECTED centralSupplying cpSupplying (by simp [centralSupplying, alookup])

/-- C2: an accepted SUPPLY_UPDATE for a known charging point stores the
reported amount `a` as the new total exactly when `a` is ≥ the previously
stored amount and ≥ 70% of (new accumulated energy × price); otherwise it
stores the previous amount plus `e × price`; in both cases the stored
amount is rounded to 2 decimal places. -/
theorem supply_update_amount_reconciliation
    (cpv : Val) (e a : ℚ) (c : Central) (cp : CPRec)
    (h : alookup c.charging_points cpv = some cp) :
    ∃ c' outs,
      handle_supply_update [Val.str "SUPPLY_UPDATE", cpv, Val.num e, Val.num a] c
        = some (c', outs)
      ∧ (alookup c'.charging_points cpv).map CPRec.amount_euro
          = some (if a ≥ cp.amount_euro ∧ a ≥ (cp.kwh_delivered + e) * cp.price_per_kwh * (7/10)
                  then round2 a
                  else round2 (cp.amount_euro + e * cp.price_per_kwh)) := by
  unfold handle_supply_update
  simp [h, Val.toNum, alookup_aset_self]
  split_ifs <;> simp

/-- Witness for `supply_update_amount_reconciliation` at a concrete
state. -/
theorem supply_update_amount_reconciliation_witness :
    ∃ c' outs,
      handle_supply_update [Val.str "SUPPLY_UPDATE", cpx, Val.num 5, Val.num 3] centralSupplying
        = some (c', outs)
      ∧ (alookup c'.charging_points cpx).map CPRec.amount_euro
          = some (if (3:ℚ) ≥ cpSupplying.amount_euro ∧ (3:ℚ) ≥ (cpSupplying.kwh_delivered + 5) * cpSupplying.price_per_kwh * (7/10)
                  then round2 3
                  else round2 (cpSupplying.amount_euro + 5 * cpSupplying.price_per_kwh)) :=
  supply_update_amount_reconciliation cpx 5 3 centralSupplying cpSupplying
    (by simp [centralSupplying, alookup])

/-- C8 counterexample: an accepted SUPPLY_UPDATE carrying a negative
energy increment decreases the stored accumulated energy (from 5 to 4
here), so accumulated energy is not non-decreasing across accepted
updates within one session. -/
theorem supply_update_energy_decreases_counterexample :
    ∃ c' outs,
      handle_supply_update [Val.str "SUPPLY_UPDATE", cpx, Val.num (-1), Val.num 0]
          centralSupplying = some (c', outs)
      ∧ (alookup c'.charging_points cpx).map CPRec.kwh_delivered = some 4
      ∧ (alookup centralSupplying.charging_points cpx).map CPRec.kwh_delivered = some 5
      ∧ ¬ ((5:ℚ) ≤ 4) := by
  unfold handle_supply_update
  simp [centralSupplying, cpSupplying, alookup, aset, Val.toNum, cpx, drx]
  norm_num

/-- C8 (amended): an accepted SUPPLY_UPDATE sets the stored accumulated
energy to its previous value plus the reported increment, unconditionally
by addition; hence accumulated energy is non-decreasing across accepted
updates whose reported increments are non-negative. -/
theorem supply_update_energy_addition
    (cpv : Val) (e a : ℚ) (c : Central) (cp : CPRec)
    (h : alookup c.charging_points cpv = some cp) :
    ∃ c' outs,
      handle_supply_update [Val.str "SUPPLY_UPDATE", cpv, Val.num e, Val.num a] c
        = some (c', outs)
      ∧ (alookup c'.charging_points cpv).map CPRec.kwh_delivered
          = some (cp.kwh_delivered + e)
      ∧ (0 ≤ e → cp.kwh_delivered ≤ cp.kwh_delivered + e) := by
  unfold handle_supply_update
  simp [h, Val.toNum, alookup_aset_self]

/-- Witness for `supply_update_energy_addition` at a concrete state. -/
theorem supply_update_energy_addition_witness :
    ∃ c' outs,
      handle_supply_update [Val.str "SUPPLY_UPDATE", cpx, Val.num 5, Val.num 3]
          centralSupplying = some (c', outs)
      ∧ (alookup c'.charging_points cpx).map CPRec.kwh_delivered
          = some (cpSupplying.kwh_delivered + 5)
      ∧ (0 ≤ (5:ℚ) → cpSupplying.kwh_delivered ≤ cpSupplying.kwh_delivered + 5) :=
  supply_update_energy_addition cpx 5 3 centralSupplying cpSupplying
    (by simp [centralSupplying, alookup])

/-- C6 counterexample: a cold-weather alert for a charging point that is
SUPPLYING does not leave its state unchanged — `_handle_weather_alert`
sets it to OUT_OF_ORDER unconditionally (there is no SUPPLYING guard on
the ALERT_COLD branch). -/
theorem cold_alert_overrides_supplying_counterexample :
    (alookup (handle_weather_alert
        [Val.str "WEATHER_ALERT", cpx, Val.str "ALERT_COLD"]
        centralSupplying).1.charging_points cpx).map CPRec.state
      = some ST_OUT_OF_ORDER
    ∧ (alookup centralSupplying.charging_points cpx).map CPRec.state
        = some ST_SUPPLYING
    ∧ ST_OUT_OF_ORDER ≠ ST_SUPPLYING := by
  simp [handle_weather_alert, centralSupplying, cpSupplying, alookup, aset,
    add_log, ui_broadcast, cpx, ST_OUT_OF_ORDER, ST_SUPPLYING]

/-- C6 (amended): for a known charging point, ALERT_COLD sets the state to
OUT_OF_ORDER regardless of the current state — including SUPPLYING — while
WEATHER_OK sets it to ACTIVATED only when the charging point is not
SUPPLYING (both on the socket path `_handle_weather_alert` and the REST
path `api_weather_alert`). -/
theorem weather_alert_state_effects
    (cpv : Val) (c : Central) (cp : CPRec)
    (h : alookup c.charging_points cpv = some cp)
    (hne : cpv ≠ Val.str "") :
    ((alookup (handle_weather_alert
        [Val.str "WEATHER_ALERT", cpv, Val.str "ALERT_COLD"]
        c).1.charging_points cpv).map CPRec.state = some ST_OUT_OF_ORDER)
    ∧ (cp.state ≠ ST_SUPPLYING →
        (alookup (handle_weather_alert
          [Val.str "WEATHER_ALERT", cpv, Val.str "WEATHER_OK"]
          c).1.charging_points cpv).map CPRec.state = some ST_ACTIVATED)
    ∧ (cp.state = ST_SUPPLYING →
        (handle_weather_alert
          [Val.str "WEATHER_ALERT", cpv, Val.str "WEATHER_OK"] c).1 = c)
    ∧ ((alookup (api_weather_alert cpv (Val.str "ALERT_COLD")
        c).1.charging_points cpv).map CPRec.state = some ST_OUT_OF_ORDER)
    ∧ (cp.state ≠ ST_SUPPLYING →
        (alookup (api_weather_alert cpv (Val.str "WEATHER_OK")
          c).1.charging_points cpv).map CPRec.state = some ST_ACTIVATED)
    ∧ (cp.state = ST_SUPPLYING →
        (api_weather_alert cpv (Val.str "WEATHER_OK") c).1.charging_points
          = c.charging_points) := by
  refine ⟨?_, ?_, ?_, ?_, ?_, ?_⟩
  · simp [handle_weather_alert, h, add_log, alookup_aset_self]
  · intro hs
    simp [handle_weather_alert, h, hs, add_log, alookup_aset_self]
  · intro hs
    simp [handle_weather_alert, h, hs]
  · simp [api_weather_alert, h, hne, add_log, alookup_aset_self]
  · intro hs
    simp [api_weather_alert, h, hne, hs, add_log, alookup_aset_self]
  · intro hs
    simp [api_weather_alert, h, hne, hs, add_log]

/-- Witness for `weather_alert_state_effects` at a concrete state. -/
theorem weather_alert_state_effects_witness :
    ((alookup (handle_weather_alert
        [Val.str "WEATHER_ALERT", cpx, Val.str "ALERT_COLD"]
        centralSupplying).1.charging_points cpx).map CPRec.state = some ST_OUT_OF_ORDER)
    ∧ (cpSupplying.state ≠ ST_SUPPLYING →
        (alookup (handle_weather_alert
          [Val.str "WEATHER_ALERT", cpx, Val.str "WEATHER_OK"]
          centralSupplying).1.charging_points cpx).map CPRec.state = some ST_ACTIVATED)
    ∧ (cpSupplying.state = ST_SUPPLYING →
        (handle_weather_alert
          [Val.str "WEATHER_ALERT", cpx, Val.str "WEATHER_OK"] centralSupplying).1 = centralSupplying)
    ∧ ((alookup (api_weather_alert cpx (Val.str "ALERT_COLD")
        centralSupplying).1.charging_points cpx).map CPRec.state = some ST_OUT_OF_ORDER)
    ∧ (cpSupplying.state ≠ ST_SUPPLYING →
        (alookup (api_weather_alert cpx (Val.str "WEATHER_OK")
          centralSupplying).1.charging_points cpx).map CPRec.state = some ST_ACTIVATED)
    ∧ (cpSupplying.state = ST_SUPPLYING →
        (api_weather_alert cpx (Val.str "WEATHER_OK") centralSupplying).1.charging_points
          = centralSupplying.charging_points) :=
  weather_alert_state_effects cpx centralSupplying cpSupplying
    (by simp [centralSupplying, alookup]) (by simp [cpx])

theorem alookup_eq_none_of_not_mem {α β : Type} [DecidableEq α]
    (l : List (α × β)) (k : α) (h : k ∉ l.map Prod.fst) :
    alookup l k = none := by
  induction l with
  | nil => simp [alookup]
  | cons p rest ih =>
      simp only [List.map_cons, List.mem_cons] at h
      push_neg at h
      have h1 : ¬ p.1 = k := fun hq => h.1 hq.symm
      simp [alookup, h1, ih h.2]

theorem alookup_adel_self {α β : Type} [DecidableEq α]
    (l : List (α × β)) (k : α) (h : (l.map Prod.fst).Nodup) :
    alookup (adel l k) k = none := by
  induction l with
  | nil => simp [adel, alookup]
  | cons p rest ih =>
      simp only [List.map_cons, List.nodup_cons] at h
      by_cases hk : p.1 = k
      · simpa [adel, hk] using alookup_eq_none_of_not_mem rest k (hk ▸ h.1)
      · simp [adel, hk, alookup, ih h.2]

/-- C5: when a charging point's socket closes while it is SUPPLYING,
`_cleanup_socket` leaves the whole charging-point map (and the driver map,
monitors, and `active_connections`) unchanged and removes only the socket
bindings; when it is not SUPPLYING, cleanup sets the record's state to
DISCONNECTED, clears `current_driver`, and clears the completion flag
(every other field of the record unchanged). -/
theorem cleanup_socket_preserves_supplying_session
    (sock : Nat) (cid : String) (c : Central) (ent : Val) (cp : CPRec)
    (hse : alookup c.socket_to_entity sock = some ent)
    (hst : alookup c.socket_to_type sock = some "CP")
    (hcp : alookup c.charging_points ent = some cp)
    (hn1 : (c.socket_to_entity.map Prod.fst).Nodup)
    (hn2 : (c.socket_to_type.map Prod.fst).Nodup)
    (hn3 : (c.entity_to_socket.map Prod.fst).Nodup) :
    (cp.state = ST_SUPPLYING →
      (cleanup_socket sock cid c).1.charging_points = c.charging_points
      ∧ (cleanup_socket sock cid c).1.drivers = c.drivers
      ∧ (cleanup_socket sock cid c).1.monitors = c.monitors
      ∧ (cleanup_socket sock cid c).1.active_connections = c.active_connections
      ∧ alookup (cleanup_socket sock cid c).1.socket_to_entity sock = none
      ∧ alookup (cleanup_socket sock cid c).1.socket_to_type sock = none
      ∧ (alookup c.entity_to_socket ent = some sock →
          alookup (cleanup_socket sock cid c).1.entity_to_socket ent = none))
    ∧ (cp.state ≠ ST_SUPPLYING →
      alookup (cleanup_socket sock cid c).1.charging_points ent
        = some { cp with state := ST_DISCONNECTED, current_driver := none, charging_complete := false }) := by
  constructor
  · intro hs
    by_cases he : alookup c.entity_to_socket ent = some sock
    · unfold cleanup_socket
      simp [hse, hst, hcp, hs, he, alookup_adel_self _ _ hn1,
        alookup_adel_self _ _ hn2, alookup_adel_self _ _ hn3]
    · unfold cleanup_socket
      simp [hse, hst, hcp, hs, he, alookup_adel_self _ _ hn1,
        alookup_adel_self _ _ hn2]
  · intro hs
    by_cases he : alookup c.entity_to_socket ent = some sock
    · unfold cleanup_socket
      simp [hse, hst, hcp, hs, he, alookup_aset_self]
    · unfold cleanup_socket
      simp [hse, hst, hcp, hs, he, alookup_aset_self]

/-- Witness for `cleanup_socket_preserves_supplying_session` at a concrete
state. -/
theorem cleanup_socket_preserves_supplying_session_witness :
    (cpSupplying.state = ST_SUPPLYING →
      (cleanup_socket 7 "a" centralSupplying).1.charging_points = centralSupplying.charging_points
      ∧ (cleanup_socket 7 "a" centralSupplying).1.drivers = centralSupplying.drivers
      ∧ (cleanup_socket 7 "a" centralSupplying).1.monitors = centralSupplying.monitors
      ∧ (cleanup_socket 7 "a" centralSupplying).1.active_connections = centralSupplying.active_connections
      ∧ alookup (cleanup_socket 7 "a" centralSupplying).1.socket_to_entity 7 = none
      ∧ alookup (cleanup_socket 7 "a" centralSupplying).1.socket_to_type 7 = none
      ∧ (alookup centralSupplying.entity_to_socket cpx = some 7 →
          alookup (cleanup_socket 7 "a" centralSupplying).1.entity_to_socket cpx = none))
    ∧ (cpSupplying.state ≠ ST_SUPPLYING →
      alookup (cleanup_socket 7 "a" centralSupplying).1.charging_points cpx
        = some { cpSupplying with state := ST_DISCONNECTED, current_driver := none, charging_complete := false }) :=
  cleanup_socket_preserves_supplying_session 7 "a" centralSupplying cpx cpSupplying
    (by simp [centralSupplying, alookup]) (by simp [centralSupplying, alookup])
    (by simp [centralSupplying, alookup, cpx])
    (by simp [centralSupplying]) (by simp [centralSupplying])
    (by simp [centralSupplying, cpx, drx])

/-- C3: a well-formed REQUEST_CHARGE is answered with DENY (carrying a
reason) exactly when the charging point is unknown, not ACTIVATED, or
already has a driver; an unknown id yields reason CP_NOT_FOUND; and every
denial leaves the entire central state unchanged. -/
theorem charge_request_deny_exactly_when
    (now q : ℚ) (d cpv : Val) (sock : Nat) (c : Central) :
    ∃ c' outs,
      handle_charge_request now [Val.str "REQUEST_CHARGE", d, cpv, Val.num q] sock c
        = some (c', outs)
      ∧ ((∃ reason, Out.send sock [Val.str "DENY", d, cpv, reason] ∈ outs) ↔
          (alookup c.charging_points cpv = none
           ∨ ∃ cp, alookup c.charging_points cpv = some cp
               ∧ (cp.state ≠ ST_ACTIVATED ∨ cp.current_driver ≠ none)))
      ∧ (alookup c.charging_points cpv = none →
          outs = [Out.send sock [Val.str "DENY", d, cpv, Val.str "CP_NOT_FOUND"]])
      ∧ ((alookup c.charging_points cpv = none
           ∨ ∃ cp, alookup c.charging_points cpv = some cp
               ∧ (cp.state ≠ ST_ACTIVATED ∨ cp.current_driver ≠ none)) →
          c' = c) := by
  unfold handle_charge_request
  cases hcp : alookup c.charging_points cpv with
  | none =>
      simp [hcp, Val.toNum]
      exact ⟨c, _, ⟨rfl, rfl⟩, ⟨_, List.mem_singleton.mpr rfl⟩, rfl, rfl⟩
  | some cp =>
      by_cases hden : cp.state ≠ ST_ACTIVATED ∨ cp.current_driver ≠ none
      · simp [hcp, Val.toNum, hden]
        exact ⟨c, _, ⟨rfl, rfl⟩, ⟨_, List.mem_singleton.mpr rfl⟩, rfl⟩
      · push_neg at hden
        rcases hmon : alookup c.monitors (Val.str "WEB_UI") with _ | us
        all_goals rcases hcs : alookup c.entity_to_socket cpv with _ | cs
        all_goals
          simp [hcp, Val.toNum, hden.1, hden.2, add_log, ui_broadcast,
            send_to_cp, hmon, hcs]
        all_goals
          refine ⟨_, _, ⟨rfl, rfl⟩, ?_⟩
        all_goals
          intro x
          simp

/-- C4: starting from an ACTIVATED charging point with no driver,
processing two REQUEST_CHARGE messages for it in sequence (the lock
serializes them) accepts exactly the first — AUTHORIZE is sent, the state
becomes SUPPLYING with the first request's driver — and denies the second
with the not-activated reason CP_STATE_SUPPLYING; the two can never both
be authorized. -/
theorem at_most_one_open_session_per_cp
    (now1 now2 q1 q2 : ℚ) (d1 d2 cpv : Val) (s1 s2 : Nat)
    (c : Central) (cp : CPRec)
    (hcp : alookup c.charging_points cpv = some cp)
    (hact : cp.state = ST_ACTIVATED) (hfree : cp.current_driver = none) :
    ∃ c1 outs1 c2 outs2,
      handle_charge_request now1 [Val.str "REQUEST_CHARGE", d1, cpv, Val.num q1] s1 c
        = some (c1, outs1)
      ∧ handle_charge_request now2 [Val.str "REQUEST_CHARGE", d2, cpv, Val.num q2] s2 c1
          = some (c2, outs2)
      ∧ Out.send s1 [Val.str "AUTHORIZE", d1, cpv, Val.num q1, Val.num cp.price_per_kwh] ∈ outs1
      ∧ (∀ x, Out.send s1 [Val.str "DENY", d1, cpv, x] ∉ outs1)
      ∧ (alookup c1.charging_points cpv).map CPRec.state = some ST_SUPPLYING
      ∧ (alookup c1.charging_points cpv).map CPRec.current_driver = some (some d1)
      ∧ outs2 = [Out.send s2 [Val.str "DENY", d2, cpv, Val.str "CP_STATE_SUPPLYING"]]
      ∧ (∀ x, Out.send s2 [Val.str "AUTHORIZE", d2, cpv, Val.num q2, x] ∉ outs2)
      ∧ c2 = c1 := by
  unfold handle_charge_request
  rcases hmon : alookup c.monitors (Val.str "WEB_UI") with _ | us
  all_goals rcases hcs : alookup c.entity_to_socket cpv with _ | cs
  all_goals
    simp [hcp, Val.toNum, hact, hfree, add_log, ui_broadcast, send_to_cp,
      hmon, hcs]
  all_goals
    refine ⟨_, _, ⟨rfl, rfl⟩, ?_⟩
  all_goals
    simp [alookup_aset_self, Val.toNum, add_log, ui_broadcast, send_to_cp,
      ST_SUPPLYING, ST_ACTIVATED]
  all_goals
    exact ⟨_, _, ⟨rfl, rfl⟩, rfl, by simp, rfl⟩

/-- Witness for `at_most_one_open_session_per_cp` at a concrete state. -/
theorem at_most_one_open_session_per_cp_witness :
    ∃ c1 outs1 c2 outs2,
      handle_charge_request 50 [Val.str "REQUEST_CHARGE", drx, cpx, Val.num 10] 8 centralActive
        = some (c1, outs1)
      ∧ handle_charge_request 60 [Val.str "REQUEST_CHARGE", drx2, cpx, Val.num 12] 9 c1
          = some (c2, outs2)
      ∧ Out.send 8 [Val.str "AUTHORIZE", drx, cpx, Val.num 10, Val.num cpActive.price_per_kwh] ∈ outs1
      ∧ (∀ x, Out.send 8 [Val.str "DENY", drx, cpx, x] ∉ outs1)
      ∧ (alookup c1.charging_points cpx).map CPRec.state = some ST_SUPPLYING
      ∧ (alookup c1.charging_points cpx).map CPRec.current_driver = some (some drx)
      ∧ outs2 = [Out.send 9 [Val.str "DENY", drx2, cpx, Val.str "CP_STATE_SUPPLYING"]]
      ∧ (∀ x, Out.send 9 [Val.str "AUTHORIZE", drx2, cpx, Val.num 12, x] ∉ outs2)
      ∧ c2 = c1 :=
  at_most_one_open_session_per_cp 50 60 10 12 drx drx2 cpx 8 9 centralActive cpActive
    (by simp [centralActive, alookup]) rfl rfl

/-- The driver-stats amounts recorded in an output list
(`storage.update_driver_stats`). -/
def chargedAmount : Out → Option ℚ
  | Out.updateDriverStats _ a => some a
  | _ => none

/-- The persisted session totals in an output list
(`storage.save_charging_session`). -/
def sessionTotals : Out → Option (ℚ × ℚ)
  | Out.saveSession _ _ k a _ => some (k, a)
  | _ => none

/-- C1: `_finalize_charge` for a known charging point and a registered
driver resets the record to ACTIVATED with `current_driver = none`,
`session_start = none`, `kwh_needed = 0` and zeroed accumulated energy
and amount, and sets the driver to IDLE with `current_cp = none`; a
second finalize with any totals yields the same reset record (never
SUPPLYING), and each call persists and tickets exactly the totals it was
explicitly passed — nothing accumulates across the two calls. -/
theorem finalize_charge_resets_and_second_call_harmless
    (now1 now2 k1 a1 k2 a2 : ℚ) (cpv dv : Val) (cid1 cid2 : String)
    (c : Central) (cp : CPRec) (d0 : DriverRec)
    (hcp : alookup c.charging_points cpv = some cp)
    (hd : alookup c.drivers dv = some d0) :
    ∃ c1 outs1 c2 outs2,
      finalize_charge now1 cpv dv k1 a1 cid1 c = (c1, outs1)
      ∧ finalize_charge now2 cpv dv k2 a2 cid2 c1 = (c2, outs2)
      ∧ alookup c1.charging_points cpv
          = some { cp with state := ST_ACTIVATED, current_driver := none, session_start := none, charging_complete := true, kwh_needed := 0, kwh_delivered := 0, amount_euro := 0 }
      ∧ alookup c1.drivers dv = some { status := "IDLE", current_cp := none }
      ∧ alookup c2.charging_points cpv
          = some { cp with state := ST_ACTIVATED, current_driver := none, session_start := none, charging_complete := true, kwh_needed := 0, kwh_delivered := 0, amount_euro := 0 }
      ∧ alookup c2.drivers dv = some { status := "IDLE", current_cp := none }
      ∧ ST_ACTIVATED ≠ ST_SUPPLYING
      ∧ outs1.filterMap chargedAmount = [a1]
      ∧ outs2.filterMap chargedAmount = [a2]
      ∧ outs1.filterMap sessionTotals = [(k1, a1)]
      ∧ outs2.filterMap sessionTotals = [(k2, a2)]
      ∧ (∀ s k a, Out.send s [Val.str "TICKET", cpv, Val.num k, Val.num a] ∈ outs1 → k = k1 ∧ a = a1)
      ∧ (∀ s k a, Out.send s [Val.str "TICKET", cpv, Val.num k, Val.num a] ∈ outs2 → k = k2 ∧ a = a2) := by
  unfold finalize_charge
  rcases hmon : alookup c.monitors (Val.str "WEB_UI") with _ | us
  all_goals rcases hds : alookup c.entity_to_socket dv with _ | ds
  all_goals
    simp [hcp, hd, hmon, hds, alookup_aset_self, ui_broadcast,
      chargedAmount, sessionTotals, ST_ACTIVATED, ST_SUPPLYING]
  all_goals
    refine ⟨_, _, ⟨rfl, rfl⟩, ?_⟩
  all_goals
    simp [alookup_aset_self, hmon, hds, ui_broadcast,
      chargedAmount, sessionTotals]
  all_goals
    refine ⟨_, _, ⟨rfl, rfl⟩, ?_⟩
  all_goals
    simp [alookup_aset_self, chargedAmount, sessionTotals]

/-- Witness for `finalize_charge_resets_and_second_call_harmless` at a
concrete state. -/
theorem finalize_charge_resets_witness :
    ∃ c1 outs1 c2 outs2,
      finalize_charge 110 cpx drx 9 2 "x" centralSupplying = (c1, outs1)
      ∧ finalize_charge 120 cpx drx 10 3 "y" c1 = (c2, outs2)
      ∧ alookup c1.charging_points cpx
          = some { cpSupplying with state := ST_ACTIVATED, current_driver := none, session_start := none, charging_complete := true, kwh_needed := 0, kwh_delivered := 0, amount_euro := 0 }
      ∧ alookup c1.drivers drx = some { status := "IDLE", current_cp := none }
      ∧ alookup c2.charging_points cpx
          = some { cpSupplying with state := ST_ACTIVATED, current_driver := none, session_start := none, charging_complete := true, kwh_needed := 0, kwh_delivered := 0, amount_euro := 0 }
      ∧ alookup c2.drivers drx = some { status := "IDLE", current_cp := none }
      ∧ ST_ACTIVATED ≠ ST_SUPPLYING
      ∧ outs1.filterMap chargedAmount = [2]
      ∧ outs2.filterMap chargedAmount = [3]
      ∧ outs1.filterMap sessionTotals = [(9, 2)]
      ∧ outs2.filterMap sessionTotals = [(10, 3)]
      ∧ (∀ s k a, Out.send s [Val.str "TICKET", cpx, Val.num k, Val.num a] ∈ outs1 → k = 9 ∧ a = 2)
      ∧ (∀ s k a, Out.send s [Val.str "TICKET", cpx, Val.num k, Val.num a] ∈ outs2 → k = 10 ∧ a = 3) :=
  finalize_charge_resets_and_second_call_harmless 110 120 9 2 10 3 cpx drx "x" "y"
    centralSupplying cpSupplying { status := "CHARGING", current_cp := some cpx }
    (by simp [centralSupplying, alookup])
    (by simp [centralSupplying, alookup])

/-- Witness for `charge_request_deny_exactly_when` at a concrete state
with an unknown charging-point id. -/
theorem charge_request_deny_exactly_when_witness :
    ∃ c' outs,
      handle_charge_request 50 [Val.str "REQUEST_CHARGE", drx, Val.str "CP-9", Val.num 10] 8 centralActive
        = some (c', outs)
      ∧ ((∃ reason, Out.send 8 [Val.str "DENY", drx, Val.str "CP-9", reason] ∈ outs) ↔
          (alookup centralActive.charging_points (Val.str "CP-9") = none
           ∨ ∃ cp, alookup centralActive.charging_points (Val.str "CP-9") = some cp
               ∧ (cp.state ≠ ST_ACTIVATED ∨ cp.current_driver ≠ none)))
      ∧ (alookup centralActive.charging_points (Val.str "CP-9") = none →
          outs = [Out.send 8 [Val.str "DENY", drx, Val.str "CP-9", Val.str "CP_NOT_FOUND"]])
      ∧ ((alookup centralActive.charging_points (Val.str "CP-9") = none
           ∨ ∃ cp, alookup centralActive.charging_points (Val.str "CP-9") = some cp
               ∧ (cp.state ≠ ST_ACTIVATED ∨ cp.current_driver ≠ none)) →
          c' = centralActive) :=
  charge_request_deny_exactly_when 50 10 drx (Val.str "CP-9") 8 centralActive

/-- C9: the charging-point peer engine handles AUTHORIZE by moving from
ACTIVATED to SUPPLYING, recording the driver and initializing a fresh
session (start stamped now, energy needed taken from the message, energy
delivered 0); in any other state the message is ignored silently and the
engine is unchanged (the handler sends nothing in either case). -/
theorem authorize_transitions_only_from_activated
    (now q : ℚ) (d cpv : Val) (e : CPEngine) :
    (e.state = ST_ACTIVATED →
      handle_authorize now [Val.str "AUTHORIZE", d, cpv, Val.num q] e
        = some { e with state := ST_SUPPLYING, current_driver := some d, current_session := some ⟨now, q, 0⟩, charging_complete := false })
    ∧ (e.state ≠ ST_ACTIVATED →
      handle_authorize now [Val.str "AUTHORIZE", d, cpv, Val.num q] e = some e) := by
  constructor
  · intro hs
    simp [handle_authorize, Val.toNum, hs]
  · intro hs
    simp [handle_authorize, Val.toNum, hs]

/-- Witness for `authorize_transitions_only_from_activated` at a concrete
engine state. -/
theorem authorize_transitions_only_from_activated_witness :
    (({ state := ST_ACTIVATED, current_driver := none, current_session := none, charging_complete := false } : CPEngine).state = ST_ACTIVATED →
      handle_authorize 50 [Val.str "AUTHORIZE", drx, cpx, Val.num 10]
          { state := ST_ACTIVATED, current_driver := none, current_session := none, charging_complete := false }
        = some { state := ST_SUPPLYING, current_driver := some drx, current_session := some ⟨50, 10, 0⟩, charging_complete := false })
    ∧ (({ state := ST_ACTIVATED, current_driver := none, current_session := none, charging_complete := false } : CPEngine).state ≠ ST_ACTIVATED →
      handle_authorize 50 [Val.str "AUTHORIZE", drx, cpx, Val.num 10]
          { state := ST_ACTIVATED, current_driver := none, current_session := none, charging_complete := false }
        = some { state := ST_ACTIVATED, current_driver := none, current_session := none, charging_complete := false }) :=
  authorize_transitions_only_from_activated 50 10 drx cpx
    { state := ST_ACTIVATED, current_driver := none, current_session := none, charging_complete := false }

/-- C7: dispatching a message that is shorter than what its handler reads
(field k read requires k+1 fields) is rejected without side effects: the
charging-point map, the driver map, and every connection binding are
unchanged, and the dispatch loop survives (`step` is total — the
per-message try/except catches the handler's exception). -/
theorem short_message_rejected_without_side_effects
    (env : Env) (now : ℚ) (sock : Nat) (cid : String)
    (t : Val) (rest : List Val) (c : Central)
    (hshort : (t :: rest).length < requiredLen t) :
    (step env now sock cid (t :: rest) c).1.charging_points = c.charging_points
    ∧ (step env now sock cid (t :: rest) c).1.drivers = c.drivers
    ∧ (step env now sock cid (t :: rest) c).1.entity_to_socket = c.entity_to_socket
    ∧ (step env now sock cid (t :: rest) c).1.socket_to_entity = c.socket_to_entity
    ∧ (step env now sock cid (t :: rest) c).1.socket_to_type = c.socket_to_type
    ∧ (step env now sock cid (t :: rest) c).1.monitors = c.monitors
    ∧ (step env now sock cid (t :: rest) c).1.active_connections = c.active_connections := by
  rcases t with s | qn
  case num =>
    exfalso
    simp [requiredLen] at hshort
  case str =>
    by_cases h1 : s = "REGISTER"
    · subst h1
      simp [requiredLen] at hshort
      simp [step, process_fields, handle_register, Nat.lt_of_succ_lt_succ,
        hshort]
    · by_cases h2 : s = "HEARTBEAT"
      · subst h2
        simp [requiredLen, h1] at hshort
        simp [step, process_fields, handle_heartbeat,
          hshort]
      · by_cases h3 : s = "REQUEST_CHARGE"
        · subst h3
          simp [requiredLen, h1, h2] at hshort
          simp [step, process_fields, handle_charge_request, add_log,
            hshort]
        · by_cases h4 : s = "QUERY_AVAILABLE_CPS"
          · subst h4
            simp [step, process_fields]
          · by_cases h5 : s = "SUPPLY_UPDATE"
            · subst h5
              simp [requiredLen, h1, h2, h3, h4] at hshort
              simp [step, process_fields, handle_supply_update, add_log,
                hshort]
            · by_cases h6 : s = "SUPPLY_END"
              · subst h6
                simp [requiredLen, h1, h2, h3, h4, h5] at hshort
                simp [step, process_fields, handle_supply_end,
                  hshort]
              · by_cases h7 : s = "END_CHARGE"
                · subst h7
                  simp [requiredLen, h1, h2, h3, h4, h5, h6] at hshort
                  simp [step, process_fields, handle_end_charge,
                    hshort]
                · by_cases h8 : s = "FINISH_CHARGE"
                  · subst h8
                    simp [requiredLen, h1, h2, h3, h4, h5, h6, h7] at hshort
                    rcases rest with _ | ⟨f1, rest1⟩
                    · simp [step, process_fields]
                    · rcases rest1 with _ | ⟨f2, rest2⟩
                      · simp [step, process_fields]
                      · exfalso
                        simp at hshort
                        omega
                  · by_cases h9 : s = "FAULT"
                    · subst h9
                      simp [requiredLen, h1, h2, h3, h4, h5, h6, h7, h8] at hshort
                      simp [step, process_fields, handle_fault,
                        hshort]
                    · by_cases h10 : s = "RECOVERY"
                      · subst h10
                        simp [requiredLen, h1, h2, h3, h4, h5, h6, h7, h8, h9] at hshort
                        simp [step, process_fields, handle_recovery,
                          hshort]
                      · by_cases h11 : s = "WEATHER_ALERT"
                        · subst h11
                          simp [requiredLen, h1, h2, h3, h4, h5, h6, h7, h8, h9, h10] at hshort
                          simp [step, process_fields, handle_weather_alert,
                            hshort]
                        · exfalso
                          simp [requiredLen, h1, h2, h3, h4, h5, h6, h7, h8, h9, h10, h11] at hshort

/-- Witness for `short_message_rejected_without_side_effects`: a
FINISH_CHARGE message with a single field. -/
theorem short_message_rejected_without_side_effects_witness :
    ((1:ℕ) < requiredLen (Val.str "FINISH_CHARGE"))
    ∧ ((step { verify := fun _ _ _ => true, getCp := fun _ => none, genKey := fun _ => "k" } 50 8 "a" [Val.str "FINISH_CHARGE"] centralActive).1.charging_points = centralActive.charging_points
    ∧ (step { verify := fun _ _ _ => true, getCp := fun _ => none, genKey := fun _ => "k" } 50 8 "a" [Val.str "FINISH_CHARGE"] centralActive).1.drivers = centralActive.drivers
    ∧ (step { verify := fun _ _ _ => true, getCp := fun _ => none, genKey := fun _ => "k" } 50 8 "a" [Val.str "FINISH_CHARGE"] centralActive).1.entity_to_socket = centralActive.entity_to_socket
    ∧ (step { verify := fun _ _ _ => true, getCp := fun _ => none, genKey := fun _ => "k" } 50 8 "a" [Val.str "FINISH_CHARGE"] centralActive).1.socket_to_entity = centralActive.socket_to_entity
    ∧ (step { verify := fun _ _ _ => true, getCp := fun _ => none, genKey := fun _ => "k" } 50 8 "a" [Val.str "FINISH_CHARGE"] centralActive).1.socket_to_type = centralActive.socket_to_type
    ∧ (step { verify := fun _ _ _ => true, getCp := fun _ => none, genKey := fun _ => "k" } 50 8 "a" [Val.str "FINISH_CHARGE"] centralActive).1.monitors = centralActive.monitors
    ∧ (step { verify := fun _ _ _ => true, getCp := fun _ => none, genKey := fun _ => "k" } 50 8 "a" [Val.str "FINISH_CHARGE"] centralActive).1.active_connections = centralActive.active_connections) :=
  ⟨by simp [requiredLen],
   short_message_rejected_without_side_effects
     { verify := fun _ _ _ => true, getCp := fun _ => none, genKey := fun _ => "k" }
     50 8 "a" (Val.str "FINISH_CHARGE") [] centralActive (by simp [requiredLen])⟩
